import Mathlib

/-!
Verification of the `bats_api` Boost.Python module-registration stub
(`src/BATSPythonAPI.cpp`).

The source file is a single module-initialization body:

  BOOST_PYTHON_MODULE(bats_api)
  {
      PyEval_InitThreads();
      BATSTradingStatusMsg::export_to_python();
      BATSTradeMsg::export_to_python();
      BATSRetailPriceImproveMsg::export_to_python();
  }

We embed it shallowly as a straight-line sequence of external calls acting on a
host (interpreter process) state, with uncaught exception propagation: the body
contains no try/catch, so a raising call aborts the remaining calls and the
exception escapes to the embedding host.
-/

/-- The three message types whose export routines the module body calls,
in the order of the source includes. -/
inductive MsgType
  | tradingStatus
  | trade
  | retailPriceImprove
deriving DecidableEq, Repr

/-- One external call made by the module-initialization body: either the
interpreter thread-safety call `PyEval_InitThreads()` or a message type's
static `export_to_python()`. The constructor for an export takes only the
message type: the source calls the routines with no arguments and discards
no return value (they return `void`). -/
inductive Call
  | pyEvalInitThreads
  | exportToPython (t : MsgType)
deriving DecidableEq, Repr

/-- Host (interpreter process) state visible to the module body.
`threadsInitCount` counts engagements of the interpreter thread-safety
mechanism, `namespaceSyms` is the module namespace's registered message-type
symbols in registration order, and `hostRest` is all remaining process state,
which the fragment never touches. -/
structure PyModuleState (α : Type) where
  threadsInitCount : Nat
  namespaceSyms : List MsgType
  hostRest : α
deriving DecidableEq, Repr

/-- Effect of `PyEval_InitThreads()` on the host state: engages the
process-wide interpreter thread-safety mechanism (modelled as a counter so
that "exactly once" is statable). -/
def pyEvalInitThreadsEffect {α : Type} (s : PyModuleState α) : PyModuleState α :=
  { s with threadsInitCount := s.threadsInitCount + 1 }

/-- Modelled from the spec: the bodies of `BATSTradingStatusMsg::export_to_python`,
`BATSTradeMsg::export_to_python` and `BATSRetailPriceImproveMsg::export_to_python`
are not in the excerpt. Per the spec each is a static, parameterless, valueless
export routine that registers its own message type's symbols into the host
module's namespace. -/
def export_to_python {α : Type} (t : MsgType) (s : PyModuleState α) : PyModuleState α :=
  { s with namespaceSyms := s.namespaceSyms ++ [t] }

/-- The state transition performed by one completed call of the body. -/
def applyCall {α : Type} (c : Call) (s : PyModuleState α) : PyModuleState α :=
  match c with
  | Call.pyEvalInitThreads => pyEvalInitThreadsEffect s
  | Call.exportToPython t => export_to_python t s

/-- The statements of the module-initialization body, in source order
(`src/BATSPythonAPI.cpp`, lines 12-16). -/
def moduleBodyCalls : List Call :=
  [Call.pyEvalInitThreads,
   Call.exportToPython MsgType.tradingStatus,
   Call.exportToPython MsgType.trade,
   Call.exportToPython MsgType.retailPriceImprove]

/-- Result of running the body: the calls that ran to completion in order,
the exception (identified by its raising call) that escaped to the host if
any, and the final host state. -/
structure RunResult (α : Type) where
  performed : List Call
  raised : Option Call
  final : PyModuleState α
deriving DecidableEq, Repr

/-- Run a sequence of calls on the host state. The body has no try/catch and
no recovery logic, so the first raising call stops execution and its exception
escapes unmodified; a raising call's own effect does not complete. -/
def runCalls {α : Type} (raisesAt : Call → Bool) : List Call → PyModuleState α → RunResult α
  | [], s => ⟨[], none, s⟩
  | c :: cs, s =>
      if raisesAt c then ⟨[], some c, s⟩
      else
        let r := runCalls raisesAt cs (applyCall c s)
        ⟨c :: r.performed, r.raised, r.final⟩

/-- Modelled from the spec: only the three export routines (whose bodies are
outside the excerpt) can fail; the spec leaves their failure mode to the host.
`PyEval_InitThreads()` is a void C-API call that cannot raise. `raises t`
says whether message type `t`'s export routine raises on this load. -/
def exportRaises (raises : MsgType → Bool) : Call → Bool
  | Call.pyEvalInitThreads => false
  | Call.exportToPython t => raises t

/-- One load of the `bats_api` module: `BOOST_PYTHON_MODULE(bats_api)` runs
the body's calls in source order on the current host state. -/
def batsApiModuleLoad {α : Type} (raises : MsgType → Bool) (s₀ : PyModuleState α) :
    RunResult α :=
  runCalls (exportRaises raises) moduleBodyCalls s₀

/-- The concrete module name declared by `BOOST_PYTHON_MODULE(bats_api)`. -/
def batsApiModuleName : String := "bats_api"

/-- A host state with an empty module namespace and untouched thread state. -/
def emptyState : PyModuleState Unit := ⟨0, [], ()⟩

/-- The (name, exported symbols) surface a clean load leaves in the embedding
runtime, `none` when the load raised. -/
def loadBatsApi (raises : MsgType → Bool) : Option (String × List MsgType) :=
  let r := batsApiModuleLoad raises emptyState
  match r.raised with
  | none => some (batsApiModuleName, r.final.namespaceSyms)
  | some _ => none

/-- The exception a load lets escape: the first export routine, in body order,
that raises (derived characterization used to state propagation). -/
def firstRaisingCall (raises : MsgType → Bool) : Option Call :=
  if raises MsgType.tradingStatus then some (Call.exportToPython MsgType.tradingStatus)
  else if raises MsgType.trade then some (Call.exportToPython MsgType.trade)
  else if raises MsgType.retailPriceImprove then some (Call.exportToPython MsgType.retailPriceImprove)
  else none

/-- Recognizer for export calls (used to state export-order claims). -/
def isExportCall : Call → Bool
  | Call.pyEvalInitThreads => false
  | Call.exportToPython _ => true

/-- C1: for every load of the module, `PyEval_InitThreads()` is engaged exactly
once during module initialization, and it runs before any of the three export
routines: it heads the sequence of completed calls, occurs exactly once in it,
and every later completed call is an export. -/
theorem initThreads_once_before_exports {α : Type} (raises : MsgType → Bool)
    (s₀ : PyModuleState α) :
    (batsApiModuleLoad raises s₀).performed.count Call.pyEvalInitThreads = 1 ∧
    (batsApiModuleLoad raises s₀).performed.head? = some Call.pyEvalInitThreads ∧
    ∀ c ∈ (batsApiModuleLoad raises s₀).performed.tail, isExportCall c = true := by
  cases h1 : raises MsgType.tradingStatus <;> cases h2 : raises MsgType.trade <;>
    cases h3 : raises MsgType.retailPriceImprove <;>
    simp [batsApiModuleLoad, runCalls, moduleBodyCalls, applyCall, exportRaises,
      isExportCall, h1, h2, h3]

/-- C2: when module initialization completes (no export raised), each of the
three message types' export routines has run exactly once. -/
theorem exports_each_once_on_complete {α : Type} (raises : MsgType → Bool)
    (s₀ : PyModuleState α)
    (h : (batsApiModuleLoad raises s₀).raised = none) (t : MsgType) :
    (batsApiModuleLoad raises s₀).performed.count (Call.exportToPython t) = 1 := by
  cases h1 : raises MsgType.tradingStatus <;> cases h2 : raises MsgType.trade <;>
    cases h3 : raises MsgType.retailPriceImprove <;>
    simp [batsApiModuleLoad, runCalls, moduleBodyCalls, applyCall, exportRaises,
      h1, h2, h3] at h ⊢ <;> cases t <;> rfl

/-- Witness for C2 at a concrete non-raising load. -/
theorem exports_each_once_on_complete_witness :
    (batsApiModuleLoad (fun _ => false) emptyState).performed.count
      (Call.exportToPython MsgType.trade) = 1 :=
  exports_each_once_on_complete (fun _ => false) emptyState rfl MsgType.trade

/-- C3: on every load that completes, the export routines run in the fixed
source order: trading status, then trade, then retail price improvement. -/
theorem exports_in_fixed_order {α : Type} (raises : MsgType → Bool)
    (s₀ : PyModuleState α)
    (h : (batsApiModuleLoad raises s₀).raised = none) :
    (batsApiModuleLoad raises s₀).performed.filter isExportCall =
      [Call.exportToPython MsgType.tradingStatus,
       Call.exportToPython MsgType.trade,
       Call.exportToPython MsgType.retailPriceImprove] := by
  cases h1 : raises MsgType.tradingStatus <;> cases h2 : raises MsgType.trade <;>
    cases h3 : raises MsgType.retailPriceImprove <;>
    simp [batsApiModuleLoad, runCalls, moduleBodyCalls, applyCall, exportRaises,
      isExportCall, h1, h2, h3] at h ⊢

/-- Witness for C3 at a concrete non-raising load. -/
theorem exports_in_fixed_order_witness :
    (batsApiModuleLoad (fun _ => false) emptyState).performed.filter isExportCall =
      [Call.exportToPython MsgType.tradingStatus,
       Call.exportToPython MsgType.trade,
       Call.exportToPython MsgType.retailPriceImprove] :=
  exports_in_fixed_order (fun _ => false) emptyState rfl

/-- C4: the initialization body has no error handling of its own: the
exception escaping a load is exactly the one raised by the first raising
export routine (propagated unmodified), and no exception escapes when no
export raises. -/
theorem failure_propagates_uncaught {α : Type} (raises : MsgType → Bool)
    (s₀ : PyModuleState α) :
    (batsApiModuleLoad raises s₀).raised = firstRaisingCall raises := by
  cases h1 : raises MsgType.tradingStatus <;> cases h2 : raises MsgType.trade <;>
    cases h3 : raises MsgType.retailPriceImprove <;>
    simp [batsApiModuleLoad, runCalls, moduleBodyCalls, applyCall, exportRaises,
      firstRaisingCall, h1, h2, h3]

/-- C5: a completed load's module namespace holds exactly the three message
types' symbols beyond what was already there — nothing else is registered. -/
theorem namespace_exactly_three_types {α : Type} (raises : MsgType → Bool)
    (s₀ : PyModuleState α)
    (h : (batsApiModuleLoad raises s₀).raised = none) :
    (batsApiModuleLoad raises s₀).final.namespaceSyms =
      s₀.namespaceSyms ++
        [MsgType.tradingStatus, MsgType.trade, MsgType.retailPriceImprove] := by
  cases h1 : raises MsgType.tradingStatus <;> cases h2 : raises MsgType.trade <;>
    cases h3 : raises MsgType.retailPriceImprove <;>
    simp [batsApiModuleLoad, runCalls, moduleBodyCalls, applyCall, exportRaises,
      export_to_python, pyEvalInitThreadsEffect, h1, h2, h3] at h ⊢

/-- Witness for C5 at a concrete non-raising load from the empty namespace. -/
theorem namespace_exactly_three_types_witness :
    (batsApiModuleLoad (fun _ => false) emptyState).final.namespaceSyms =
      emptyState.namespaceSyms ++
        [MsgType.tradingStatus, MsgType.trade, MsgType.retailPriceImprove] :=
  namespace_exactly_three_types (fun _ => false) emptyState rfl

/-- C6: each message type's export routine appears exactly once among the
module-initialization body's statements: it is called exactly once, at
module-load time only, as a parameterless, valueless static call (encoded by
the `Call.exportToPython` form, which carries only the message type). -/
theorem export_called_once_in_body (t : MsgType) :
    moduleBodyCalls.count (Call.exportToPython t) = 1 := by
  cases t <;> rfl

/-- C7: on any load, the only state changes are engaging the interpreter
thread-safety mechanism (once) and appending symbols to the module namespace;
all other host state is unchanged. -/
theorem frame_only_threads_and_namespace {α : Type} (raises : MsgType → Bool)
    (s₀ : PyModuleState α) :
    (batsApiModuleLoad raises s₀).final.hostRest = s₀.hostRest ∧
    (batsApiModuleLoad raises s₀).final.threadsInitCount = s₀.threadsInitCount + 1 ∧
    ∃ new, (batsApiModuleLoad raises s₀).final.namespaceSyms =
      s₀.namespaceSyms ++ new := by
  cases h1 : raises MsgType.tradingStatus <;> cases h2 : raises MsgType.trade <;>
    cases h3 : raises MsgType.retailPriceImprove <;>
    simp [batsApiModuleLoad, runCalls, moduleBodyCalls, applyCall, exportRaises,
      export_to_python, pyEvalInitThreadsEffect, h1, h2, h3]

/-- C8: loading the module registers it under the concrete name "bats_api"
with the three message types available in its namespace. -/
theorem loads_as_bats_api :
    loadBatsApi (fun _ => false) =
      some ("bats_api",
        [MsgType.tradingStatus, MsgType.trade, MsgType.retailPriceImprove]) := by
  rfl

/-- C9: module initialization is deterministic: any two loads perform the same
call sequence regardless of prior host state, and a non-raising load always
performs exactly the thread-safety enable followed by the three exports in
source order. -/
theorem load_deterministic {α β : Type} (raises : MsgType → Bool)
    (s₀ : PyModuleState α) (s₁ : PyModuleState β) :
    (batsApiModuleLoad raises s₀).performed = (batsApiModuleLoad raises s₁).performed ∧
    (batsApiModuleLoad (fun _ => false) s₀).performed = moduleBodyCalls := by
  cases h1 : raises MsgType.tradingStatus <;> cases h2 : raises MsgType.trade <;>
    cases h3 : raises MsgType.retailPriceImprove <;>
    simp [batsApiModuleLoad, runCalls, moduleBodyCalls, applyCall, exportRaises,
      h1, h2, h3]

/-- C10: initialization is not atomic on failure: if the second (or third)
export raises, the thread-safety enable and the earlier exports' registrations
remain in effect and are not rolled back, and the exception escapes. -/
theorem registrations_persist_on_failure {α : Type} (s₀ : PyModuleState α)
    (raises : MsgType → Bool) :
    (raises MsgType.tradingStatus = false → raises MsgType.trade = true →
      (batsApiModuleLoad raises s₀).raised = some (Call.exportToPython MsgType.trade) ∧
      (batsApiModuleLoad raises s₀).final.namespaceSyms =
        s₀.namespaceSyms ++ [MsgType.tradingStatus] ∧
      (batsApiModuleLoad raises s₀).final.threadsInitCount = s₀.threadsInitCount + 1) ∧
    (raises MsgType.tradingStatus = false → raises MsgType.trade = false →
      raises MsgType.retailPriceImprove = true →
      (batsApiModuleLoad raises s₀).raised =
        some (Call.exportToPython MsgType.retailPriceImprove) ∧
      (batsApiModuleLoad raises s₀).final.namespaceSyms =
        s₀.namespaceSyms ++ [MsgType.tradingStatus, MsgType.trade] ∧
      (batsApiModuleLoad raises s₀).final.threadsInitCount = s₀.threadsInitCount + 1) := by
  constructor
  · intro h1 h2
    simp [batsApiModuleLoad, runCalls, moduleBodyCalls, applyCall, exportRaises,
      export_to_python, pyEvalInitThreadsEffect, h1, h2]
  · intro h1 h2 h3
    simp [batsApiModuleLoad, runCalls, moduleBodyCalls, applyCall, exportRaises,
      export_to_python, pyEvalInitThreadsEffect, h1, h2, h3]

/-- Witness for C10: the trade export raises, the trading-status registration
and the thread-safety enable persist. -/
theorem registrations_persist_on_failure_witness :
    (batsApiModuleLoad (fun t => t == MsgType.trade) emptyState).raised =
      some (Call.exportToPython MsgType.trade) ∧
    (batsApiModuleLoad (fun t => t == MsgType.trade) emptyState).final.namespaceSyms =
      emptyState.namespaceSyms ++ [MsgType.tradingStatus] ∧
    (batsApiModuleLoad (fun t => t == MsgType.trade) emptyState).final.threadsInitCount =
      emptyState.threadsInitCount + 1 :=
  (registrations_persist_on_failure emptyState (fun t => t == MsgType.trade)).1 rfl rfl
